import Mathlib

/-!
Verification of the `arcutils` repository (files `field.py` and `table.py`).

The development shallowly embeds the repository's functions over an explicit
model of the host GIS platform's collaborator contract:

* a dataset is the list of field descriptors the platform's field lister
  returns for it, together with the path string used in messages;
* a row cursor over one column is the list of Python values it yields, or the
  error it raises;
* Python scalar values are modelled by `PyVal`, Python dictionaries keyed by
  strings by association lists with overwrite-on-insert semantics, and the
  per-field descriptor dictionary `{"name": ..., "alias": ..., "type": ...,
  "length": ..., "required": ...}` by `FieldDesc` with an explicit subscript
  operation that, like a Python dict, fails on any key that is not one of its
  string keys (in particular on the integer keys 1 and 2);
* functions that catch exceptions return the caught message in a log
  component; functions that let exceptions propagate return `Except`.
-/

/-- A Python scalar value as read from a row cursor or stored in a field
descriptor: a string, an integer, a boolean, or Python None. -/
inductive PyVal where
  | str (s : String)
  | int (n : Int)
  | bool (b : Bool)
  | null
deriving DecidableEq, Repr

/-- A Python dictionary key: either a string or an integer. -/
inductive PyKey where
  | str (s : String)
  | int (n : Int)
deriving DecidableEq, Repr

/-- How Python's str.format renders a scalar value. -/
def PyVal.format : PyVal → String
  | .str s => s
  | .int n => toString n
  | .bool b => if b then "True" else "False"
  | .null => "None"

/-- A field descriptor as reported by the platform's field lister
(arcpy ListFields): the attributes the repository reads.  The flag
attributes (`required`, `isNullable`, `editable`) are booleans. -/
structure ArcField where
  name : String
  aliasName : String
  ftype : String
  length : Nat
  precision : Nat
  scale : Nat
  required : Bool
  isNullable : Bool
  editable : Bool
  domain : String
  defaultValue : String
  baseName : String
deriving DecidableEq, Repr

/-- Python's `len` applied to a cursor value: defined for strings, raises
`TypeError` (modelled as `none`) for every other value, including None. -/
def pyLen : PyVal → Option Nat
  | .str s => some s.length
  | _ => Option.none

/-- The scanning loop shared verbatim by the three copies of
`get_max_field_value_length` (field.py:8, table.py:121, `TableObj` method at
table.py:62): `length = 0`, then for each row value keep
`len(value[0])` when it exceeds the running maximum.  Any `len` failure
propagates uncaught, as in the source (no try/except around the loop). -/
def maxLenLoop : List PyVal → Nat → Except String Nat
  | [], length => .ok length
  | v :: rest, length =>
    match pyLen v with
    | Option.none => .error "TypeError: object of this type has no len"
    | some n => maxLenLoop rest (if n > length then n else length)

/-- field.py `get_max_field_value_length`: return the length of the maximum
value in the field; rows are the values the search cursor yields. -/
def FieldPy.get_max_field_value_length (rows : List PyVal) : Except String Nat :=
  maxLenLoop rows 0

/-- table.py free function `get_max_field_value_length` (line 121); its body
is identical to the field.py copy. -/
def TablePy.get_max_field_value_length (rows : List PyVal) : Except String Nat :=
  maxLenLoop rows 0

/-- `TableObj.get_max_field_value_length` (table.py line 62); its body is
identical to the two free-function copies. -/
def TableObj.get_max_field_value_length (rows : List PyVal) : Except String Nat :=
  maxLenLoop rows 0

/-- An error raised by the platform inside a cursor scan: either an
`arcpy.ExecuteError` or a generic Python exception, each carrying the text
the corresponding handler would log (`arcpy.GetMessages(2)` respectively
`e.args[0]`). -/
inductive ArcErr where
  | executeError (msg : String)
  | genericError (msg : String)
deriving DecidableEq, Repr

/-- The message the handler of this error logs via `output_msg`. -/
def ArcErr.message : ArcErr → String
  | .executeError m => m
  | .genericError m => m

/-- Python 2 `s.encode('ascii', 'ignore')`: drop every character outside the
7-bit range. -/
def asciiIgnore (s : String) : String :=
  String.mk (s.data.filter (fun c => c.val < 128))

/-- The per-row transform of `get_field_value_set`: None becomes the
variant's sentinel string, a string is kept as-is for a non-default charset
and otherwise lossily re-encoded to ASCII, any other value is added
unchanged. -/
def transformValue (sentinel : String) (charset : String) : PyVal → PyVal
  | .null => .str sentinel
  | .str s => if charset != "ascii" then .str s else .str (asciiIgnore s)
  | .int n => .int n
  | .bool b => .bool b

/-- The body shared by the three copies of `get_field_value_set`
(field.py:26, table.py:137, `TableObj` method at table.py:72), parameterised
by the null sentinel that distinguishes them.  The row source either yields
the column's values or raises; a raise is caught, its message logged via
`output_msg`, and the function falls off the end returning None. -/
def valueSetCore (sentinel : String) (charset : String)
    (rows : Except ArcErr (List PyVal)) : Option (Finset PyVal) × List String :=
  match rows with
  | .ok vs => (some ((vs.map (transformValue sentinel charset)).toFinset), [])
  | .error e => (Option.none, [e.message])

/-- field.py `get_field_value_set` (line 26): null is represented by the
empty string. -/
def FieldPy.get_field_value_set (charset : String)
    (rows : Except ArcErr (List PyVal)) : Option (Finset PyVal) × List String :=
  valueSetCore "" charset rows

/-- table.py free function `get_field_value_set` (line 137): null is
represented by the literal token `<Null>`. -/
def TablePy.get_field_value_set (charset : String)
    (rows : Except ArcErr (List PyVal)) : Option (Finset PyVal) × List String :=
  valueSetCore "<Null>" charset rows

/-- `TableObj.get_field_value_set` (table.py line 72): identical to the
table.py free function, null represented by `<Null>`. -/
def TableObj.get_field_value_set (charset : String)
    (rows : Except ArcErr (List PyVal)) : Option (Finset PyVal) × List String :=
  valueSetCore "<Null>" charset rows

/-- table.py free function `list_field_names` (line 192): with the flag set
the loop appends every field's name; with the flag clear it appends a name
only when the platform flags the field as required (`if f.required:`). -/
def list_field_names : List ArcField → Bool → List String
  | [], _ => []
  | f :: rest, required =>
    if required then f.name :: list_field_names rest required
    else if f.required then f.name :: list_field_names rest required
    else list_field_names rest required

/-- `TableObj._list_field_names` (table.py line 35): with the flag set the
loop appends every field's name; with the flag clear it appends a name only
when the field is not required (`if not f.required:`). -/
def TableObj._list_field_names : List ArcField → Bool → List String
  | [], _ => []
  | f :: rest, all =>
    if all then f.name :: TableObj._list_field_names rest all
    else if !f.required then f.name :: TableObj._list_field_names rest all
    else TableObj._list_field_names rest all

/-- The reduced descriptor dictionary `make_field_dict` stores per field:
the Python dict with string keys name, alias, type, length, required. -/
structure FieldDesc where
  name : String
  aliasName : String
  ftype : String
  length : Nat
  required : Bool
deriving DecidableEq, Repr

/-- The descriptor dictionary built for one field (table.py lines 235-241). -/
def descOf (f : ArcField) : FieldDesc :=
  { name := f.name, aliasName := f.aliasName, ftype := f.ftype,
    length := f.length, required := f.required }

/-- Python subscript on a per-field descriptor dictionary: defined exactly on
its five string keys; any other key (in particular the integers 1 and 2 used
by `compare_schemas`) raises KeyError, modelled as `none`. -/
def FieldDesc.subscript (d : FieldDesc) : PyKey → Option PyVal
  | .str "name" => some (.str d.name)
  | .str "alias" => some (.str d.aliasName)
  | .str "type" => some (.str d.ftype)
  | .str "length" => some (.int d.length)
  | .str "required" => some (.bool d.required)
  | _ => Option.none

/-- A Python dict from field names to descriptors, as an association list
with overwrite-on-insert. -/
abbrev Dict := List (String × FieldDesc)

/-- Assignment `d[k] = v` on a Python dict: overwrite the existing entry for
`k` or append a new one. -/
def Dict.insert : Dict → String → FieldDesc → Dict
  | [], k, v => [(k, v)]
  | (k', v') :: rest, k, v =>
    if k' = k then (k, v) :: rest else (k', v') :: Dict.insert rest k v

/-- Lookup `d[k]` on a Python dict (`none` is a KeyError). -/
def Dict.find : Dict → String → Option FieldDesc
  | [], _ => Option.none
  | (k', v') :: rest, k => if k' = k then some v' else Dict.find rest k

/-- The key list of a Python dict (`d.keys()`). -/
def Dict.keys (d : Dict) : List String :=
  d.map Prod.fst

/-- table.py `make_field_dict` (line 210).  The first component is the built
dictionary.  The second component models the contents, after the call, of
the `fields_to_ignore` list: the caller's `ignore_fields` list object itself
when one was supplied (the function aliases it and appends to it in place),
with the name of every platform-required field appended when
`skip_required` is set. -/
def make_field_dict (l_fields : List ArcField) (ignore_fields : Option (List String))
    (skip_required : Bool) : Dict × List String :=
  let fields_to_ignore :=
    (match ignore_fields with
     | Option.none => []
     | some l => l) ++
    (if skip_required then (l_fields.filter (fun f => f.required)).map (fun f => f.name)
     else [])
  let field_dict := l_fields.foldl
    (fun d f => if f.name ∈ fields_to_ignore then d else Dict.insert d f.name (descOf f)) []
  (field_dict, fields_to_ignore)

/-- A dataset as `compare_schemas` sees it: the path string used in result
messages and the field descriptors the platform lists for it. -/
structure Dataset where
  name : String
  fields : List ArcField
deriving DecidableEq, Repr

/-- Result line for a field name absent from one side (table.py line 259):
the format string is a space, the field name, a space, and not found in the
dataset reference. -/
def notFoundMsg (n : String) (fc : Dataset) : String :=
  " " ++ n ++ " not found in " ++ fc.name

/-- Result line for a field whose descriptors match exactly (table.py 269). -/
def sameMsg (n : String) : String :=
  " " ++ n ++ " field same in both"

/-- Result line for a descriptor mismatch (table.py line 277), formatted
from the values the integer subscripts would have produced. -/
def mismatchMsg (fc1 fc2 : Dataset) (n : String) (t1 l1 t2 l2 : PyVal) : String :=
  " " ++ fc1.name ++ " " ++ n ++ " " ++ t1.format ++ " " ++ l1.format ++
    " does not exactly match " ++ fc2.name ++ " " ++ n ++ " " ++ t2.format ++
    " " ++ l2.format

/-- One iteration of the `compare_schemas` loop for the field name `n`:
returns the messages logged via `output_msg` and the messages appended to
`result_arr`, or the exception the iteration raises.  In the mismatch
branch the code evaluates `field_dict1[ifield][1]` first (table.py line
272): an integer subscript on the descriptor dictionary, which raises
KeyError. -/
def compareStep (fc1 fc2 : Dataset) (d1 d2 : Dict) (n : String) :
    Except String (List String × List String) :=
  match d1.find n with
  | Option.none =>
    let r := notFoundMsg n fc1
    .ok ([r], [r])
  | some v1 =>
    match d2.find n with
    | Option.none =>
      let r := notFoundMsg n fc2
      .ok ([r], [r])
    | some v2 =>
      if v1 = v2 then
        .ok ([sameMsg n], [])
      else
        match v1.subscript (PyKey.int 1) with
        | Option.none => .error "KeyError: 1"
        | some field_one_type =>
          match v2.subscript (PyKey.int 1) with
          | Option.none => .error "KeyError: 1"
          | some field_two_type =>
            match v1.subscript (PyKey.int 2) with
            | Option.none => .error "KeyError: 2"
            | some field_one_length =>
              match v2.subscript (PyKey.int 2) with
              | Option.none => .error "KeyError: 2"
              | some field_two_length =>
                let r := mismatchMsg fc1 fc2 n field_one_type field_one_length
                  field_two_type field_two_length
                .ok ([r], [r])

/-- The `compare_schemas` loop over the sorted union of field names: the
first component is the returned `result_arr` or the exception that escaped;
the second component is everything logged via `output_msg` before the
exception (an exception discards the array but not the messages already
printed). -/
def compareLoop (fc1 fc2 : Dataset) (d1 d2 : Dict) :
    List String → Except String (List String) × List String
  | [] => (.ok [], [])
  | n :: rest =>
    match compareStep fc1 fc2 d1 d2 n with
    | .error e => (.error e, [])
    | .ok (lg, ap) =>
      match compareLoop fc1 fc2 d1 d2 rest with
      | (.error e, lgs) => (.error e, lg ++ lgs)
      | (.ok aps, lgs) => (.ok (ap ++ aps), lg ++ lgs)

/-- `sorted(list(set(field_dict1.keys() + field_dict2.keys())))` (table.py
line 256): deduplicate the concatenated key lists and sort ascending. -/
def sortedUnion (d1 d2 : Dict) : List String :=
  List.insertionSort (fun a b => a ≤ b) ((d1.keys ++ d2.keys).dedup)

/-- table.py `compare_schemas` (line 245): build the two field dictionaries
with default arguments, then run the comparison loop over the sorted union
of their key sets. -/
def compare_schemas (fc1 fc2 : Dataset) : Except String (List String) × List String :=
  let field_dict1 := (make_field_dict fc1.fields Option.none false).1
  let field_dict2 := (make_field_dict fc2.fields Option.none false).1
  compareLoop fc1 fc2 field_dict1 field_dict2 (sortedUnion field_dict1 field_dict2)

/-- The appended result the loop produces for one field name, when it
produces one without raising: a not-found line exactly when the name is
missing from one of the two dictionaries. -/
def notFoundPick (fc1 fc2 : Dataset) (d1 d2 : Dict) (n : String) : Option String :=
  match d1.find n with
  | Option.none => some (notFoundMsg n fc1)
  | some _ =>
    match d2.find n with
    | Option.none => some (notFoundMsg n fc2)
    | some _ => Option.none

/-- The not-found lines `compare_schemas fc1 fc2` emits, in loop order. -/
def notFoundResults (fc1 fc2 : Dataset) : List String :=
  (sortedUnion (make_field_dict fc1.fields Option.none false).1
      (make_field_dict fc2.fields Option.none false).1).filterMap
    (notFoundPick fc1 fc2 (make_field_dict fc1.fields Option.none false).1
      (make_field_dict fc2.fields Option.none false).1)

/-- The `type_conversions` table of `export_schema_to_csv` (table.py line
299), as the Python dict lookup function it is used as. -/
def type_conversions (k : String) : Option String :=
  match k with
  | "String" => some "TEXT"
  | "Float" => some "FLOAT"
  | "Double" => some "DOUBLE"
  | "SmallInteger" => some "SHORT"
  | "Integer" => some "LONG"
  | "Date" => some "DATE"
  | "Blob" => some "BLOB"
  | "Raster" => some "RASTER"
  | "GUID" => some "GUID"
  | "TRUE" => some "True"
  | "FALSE" => some "False"
  | _ => Option.none

/-- The token under which the platform reports a field flag attribute to the
exporter, the form consumed by the conversion table's TRUE and FALSE
entries. -/
def boolToken (b : Bool) : String :=
  if b then "TRUE" else "FALSE"

/-- One data row of the CSV report (table.py lines 331-343): the twelve
format arguments in evaluation order; a failed conversion-table lookup
raises KeyError before anything of the row is written, modelled as `none`. -/
def fieldRow (f : ArcField) : Option String :=
  match type_conversions f.ftype with
  | Option.none => Option.none
  | some t =>
    match type_conversions (boolToken f.isNullable) with
    | Option.none => Option.none
    | some nl =>
      match type_conversions (boolToken f.required) with
      | Option.none => Option.none
      | some rq =>
        match type_conversions (boolToken f.editable) with
        | Option.none => Option.none
        | some ed =>
          some (f.name ++ "," ++ t ++ "," ++ toString f.precision ++ "," ++
            toString f.scale ++ "," ++ toString f.length ++ "," ++ f.aliasName ++
            "," ++ nl ++ "," ++ rq ++ "," ++ f.domain ++ "," ++ f.defaultValue ++
            "," ++ ed ++ "," ++ f.baseName ++ "\n")

/-- The row-writing loop (table.py lines 328-343): rows are written in field
order; the first exception aborts the loop (it is caught by the inner
handler, which logs and falls through), so nothing after it is written. -/
def writeRows : List ArcField → String
  | [] => ""
  | f :: rest =>
    match fieldRow f with
    | Option.none => ""
    | some r => r ++ writeRows rest

/-- The header text written by table.py lines 323-325 (a single write ending
in a newline). -/
def csvHeader : String :=
  "FieldName,FieldType,FieldPrecision,FieldScale,FieldLength,FieldAlias,isNullable,Required,FieldDomain,DefaultValue,Editable,BaseName"

/-- The full content written to the report file: first the write
`"Type,{fc_type}"` with no trailing newline (table.py line 322), then the
header write ending in a newline, then the data rows. -/
def exportCsvContent (fcType : String) (fields : List ArcField) : String :=
  "Type," ++ fcType ++ csvHeader ++ "\n" ++ writeRows fields

/-- The process-wide `arcpy.env` state read and written by the exporter. -/
structure EnvState where
  workspace : Option String
deriving DecidableEq, Repr

/-- The external outcomes that steer one `export_schema_to_csv` call: the
input path, the dataset type the describe call reports, the listed fields,
and whether each fallible collaborator call succeeds.  `describe1Ok` is the
describe at table.py line 302 (before the try/finally), `describe2Ok` the
one at line 311 (inside it), `pathOk` the `get_valid_output_path` call, and
`openOk` the `open` of the report file. -/
structure ExportEnv where
  fc : String
  fcType : String
  fields : List ArcField
  describe1Ok : Bool
  describe2Ok : Bool
  pathOk : Bool
  openOk : Bool
deriving DecidableEq, Repr

/-- The observable outcome of one `export_schema_to_csv` call: the final
`arcpy.env` state, whether an exception escaped the call, and the content
written to the report file (`none` when the file was never opened). -/
structure ExportResult where
  state : EnvState
  raised : Bool
  file : Option String
deriving DecidableEq, Repr

/-- table.py `export_schema_to_csv` (line 285).  `default_env` is saved
first; the describe at line 302 runs before the try/finally, so its failure
propagates with the workspace untouched.  Inside the try, the workspace is
overwritten with the input path at line 314; a describe failure raises
ValueError before that and is caught by the outer handler; path and open
failures are caught by the outer handler after it; row-writing failures are
caught by the inner handler (leaving a partial file).  The `finally` block
always restores `default_env` (line 353). -/
def export_schema_to_csv (env : ExportEnv) (s : EnvState) : ExportResult :=
  let default_env := s.workspace
  if !env.describe1Ok then
    { state := s, raised := true, file := Option.none }
  else
    let afterTry :=
      if !env.describe2Ok then
        (s, (Option.none : Option String))
      else
        let s1 : EnvState := { s with workspace := some env.fc }
        if !env.pathOk then (s1, Option.none)
        else if !env.openOk then (s1, Option.none)
        else (s1, some (exportCsvContent env.fcType env.fields))
    { state := { afterTry.1 with workspace := default_env },
      raised := false, file := afterTry.2 }

/-- A sample field descriptor for concrete test datasets: alias and base
name copy the name, the flag attributes are fixed to a nullable, editable,
non-domain field. -/
def testField (n : String) (t : String) (len : Nat) (req : Bool) : ArcField :=
  { name := n, aliasName := n, ftype := t, length := len, precision := 0,
    scale := 0, required := req, isNullable := true, editable := true,
    domain := "", defaultValue := "", baseName := n }

/-- A dataset whose only field A is a String of length 10. -/
def dsStr : Dataset := ⟨"t1", [testField "A" "String" 10 false]⟩

/-- A dataset whose only field A is a Double of length 8: same field name as
`dsStr` with a differing descriptor. -/
def dsDbl : Dataset := ⟨"t2", [testField "A" "Double" 8 false]⟩

/-- A dataset with the same single field as `dsStr` under another path. -/
def dsStr2 : Dataset := ⟨"t5", [testField "A" "String" 10 false]⟩

/-- A dataset the platform reports no fields for. -/
def dsNoFields : Dataset := ⟨"t0", []⟩

/-- A dataset whose only field is B1. -/
def dsOnlyB1 : Dataset := ⟨"t4", [testField "B1" "Double" 8 false]⟩

/-- A platform-required field, as the object-id field of every table is. -/
def reqField : ArcField := testField "OBJECTID" "Integer" 4 true

/-- An ordinary non-required field. -/
def plainField : ArcField := testField "NAME" "String" 50 false

/-- A realistic string field for the export example. -/
def roadsField : ArcField :=
  { name := "ROAD_NAME", aliasName := "Road Name", ftype := "String",
    length := 50, precision := 0, scale := 0, required := false,
    isNullable := true, editable := true, domain := "", defaultValue := "",
    baseName := "ROAD_NAME" }

/-- An export call on a polyline feature class on which every collaborator
call succeeds. -/
def exportEnvEx : ExportEnv :=
  { fc := "C:/data/roads.gdb/roads", fcType := "Polyline",
    fields := [roadsField], describe1Ok := true, describe2Ok := true,
    pathOk := true, openOk := true }

/-- The ambient workspace before the export example runs. -/
def envStateEx : EnvState := ⟨some "C:/data"⟩

/-- Split a list of characters at newline characters. -/
def splitCharsOnNl : List Char → List (List Char)
  | [] => [[]]
  | c :: rest =>
    let r := splitCharsOnNl rest
    if c = '\n' then [] :: r
    else
      match r with
      | [] => [[c]]
      | l :: ls => (c :: l) :: ls

/-- The lines of a written file: its text split at newline characters. -/
def fileLines (s : String) : List String :=
  (splitCharsOnNl s.data).map String.mk

theorem maxLenLoop_str (rows : List String) :
    ∀ acc : Nat, maxLenLoop (rows.map PyVal.str) acc =
      .ok ((rows.map String.length).foldl Nat.max acc) := by
  induction rows with
  | nil => intro acc; rfl
  | cons s rest ih =>
    intro acc
    have hmax : (if s.length > acc then s.length else acc) = Nat.max acc s.length := by
      by_cases h : s.length > acc
      · simp [h, Nat.max_eq_right (Nat.le_of_lt h)]
      · simp [h, Nat.max_eq_left (Nat.le_of_not_lt h)]
    simp only [List.map_cons, maxLenLoop, pyLen, List.foldl_cons, hmax, ih]

/-- C3: on a column whose values are all non-null strings, all three copies
of `get_max_field_value_length` succeed and return the maximum string length
over the rows (the fold of `Nat.max` from 0), in particular 0 for a column
with no rows. -/
theorem get_max_field_value_length_is_max (rows : List String) :
    FieldPy.get_max_field_value_length (rows.map PyVal.str) =
        .ok ((rows.map String.length).foldl Nat.max 0) ∧
    TablePy.get_max_field_value_length (rows.map PyVal.str) =
        .ok ((rows.map String.length).foldl Nat.max 0) ∧
    TableObj.get_max_field_value_length (rows.map PyVal.str) =
        .ok ((rows.map String.length).foldl Nat.max 0) ∧
    FieldPy.get_max_field_value_length [] = .ok 0 ∧
    TablePy.get_max_field_value_length [] = .ok 0 ∧
    TableObj.get_max_field_value_length [] = .ok 0 :=
  ⟨maxLenLoop_str rows 0, maxLenLoop_str rows 0, maxLenLoop_str rows 0,
   rfl, rfl, rfl⟩

/-- C5: on every row list the three copies of `get_field_value_set` return a
set; its size is at most the row count and equals the number of distinct
post-transform values, and the per-row transform collapses a null value to
the variant's sentinel: the empty string in field.py, the token Null in
both table.py copies. -/
theorem get_field_value_set_distinct_count (charset : String) (rows : List PyVal) :
    ((FieldPy.get_field_value_set charset (.ok rows)).1.getD ∅).card ≤ rows.length ∧
    ((FieldPy.get_field_value_set charset (.ok rows)).1.getD ∅).card =
        (rows.map (transformValue "" charset)).dedup.length ∧
    (FieldPy.get_field_value_set charset (.ok rows)).1 =
        some ((rows.map (transformValue "" charset)).toFinset) ∧
    transformValue "" charset PyVal.null = PyVal.str "" ∧
    ((TablePy.get_field_value_set charset (.ok rows)).1.getD ∅).card ≤ rows.length ∧
    ((TablePy.get_field_value_set charset (.ok rows)).1.getD ∅).card =
        (rows.map (transformValue "<Null>" charset)).dedup.length ∧
    (TablePy.get_field_value_set charset (.ok rows)).1 =
        some ((rows.map (transformValue "<Null>" charset)).toFinset) ∧
    transformValue "<Null>" charset PyVal.null = PyVal.str "<Null>" ∧
    ((TableObj.get_field_value_set charset (.ok rows)).1.getD ∅).card ≤ rows.length ∧
    ((TableObj.get_field_value_set charset (.ok rows)).1.getD ∅).card =
        (rows.map (transformValue "<Null>" charset)).dedup.length ∧
    (TableObj.get_field_value_set charset (.ok rows)).1 =
        some ((rows.map (transformValue "<Null>" charset)).toFinset) := by
  have hle : ∀ sentinel : String,
      ((rows.map (transformValue sentinel charset)).toFinset).card ≤ rows.length := by
    intro sentinel
    calc ((rows.map (transformValue sentinel charset)).toFinset).card
        ≤ (rows.map (transformValue sentinel charset)).length := List.toFinset_card_le _
      _ = rows.length := List.length_map _ _
  refine ⟨hle "", List.card_toFinset _, rfl, rfl, hle "<Null>",
    List.card_toFinset _, rfl, rfl, hle "<Null>", List.card_toFinset _, rfl⟩

/-- C6: when the cursor scan raises a platform execute error or a generic
exception, every copy of `get_field_value_set` catches it, logs the
handler's message via `output_msg`, and returns None. -/
theorem get_field_value_set_catches (charset : String) (e : ArcErr) :
    FieldPy.get_field_value_set charset (.error e) = (Option.none, [e.message]) ∧
    TablePy.get_field_value_set charset (.error e) = (Option.none, [e.message]) ∧
    TableObj.get_field_value_set charset (.error e) = (Option.none, [e.message]) :=
  ⟨rfl, rfl, rfl⟩

/-- C4: the free function `list_field_names` returns every field name when
its flag is set and exactly the required fields' names when it is clear,
while `TableObj._list_field_names` with a clear flag returns exactly the
non-required fields' names: the two variants filter with opposite
polarity. -/
theorem list_field_names_polarity (fields : List ArcField) :
    list_field_names fields true = fields.map (fun f => f.name) ∧
    list_field_names fields false =
        (fields.filter (fun f => f.required)).map (fun f => f.name) ∧
    TableObj._list_field_names fields true = fields.map (fun f => f.name) ∧
    TableObj._list_field_names fields false =
        (fields.filter (fun f => !f.required)).map (fun f => f.name) := by
  refine ⟨?_, ?_, ?_, ?_⟩ <;>
    (induction fields with
     | nil => rfl
     | cons f rest ih =>
       cases hr : f.required <;>
         simp [list_field_names, TableObj._list_field_names, hr, ih,
           List.filter_cons])

/-- C1: after every `export_schema_to_csv` call, on every exit path, the
process-wide workspace setting equals its value before the call. -/
theorem export_schema_to_csv_restores_workspace (env : ExportEnv) (s : EnvState) :
    (export_schema_to_csv env s).state.workspace = s.workspace := by
  unfold export_schema_to_csv
  split <;> rfl

/-- C10 counterexample: a call with skip_required set on a dataset with no
platform-required field leaves the caller's ignore list holding exactly the
same elements as before, refuting the claim that the argument never holds
the same elements after the call. -/
theorem make_field_dict_counterexample :
    (make_field_dict [plainField] (some ["KEEP"]) true).2 = ["KEEP"] := rfl

/-- C10 (amended): with skip_required set and a caller-supplied ignore
list, the caller's list object ends the call holding its previous elements
followed by the names of all platform-required fields; whenever the dataset
has at least one required field, the list therefore does not hold the same
elements as before the call. -/
theorem make_field_dict_mutates_ignore (fields : List ArcField) (ig : List String) :
    (make_field_dict fields (some ig) true).2 =
        ig ++ (fields.filter (fun f => f.required)).map (fun f => f.name) ∧
    ((fields.filter (fun f => f.required)).map (fun f => f.name) ≠ [] →
      (make_field_dict fields (some ig) true).2 ≠ ig) := by
  refine ⟨rfl, fun hne heq => hne ?_⟩
  have hlen := congrArg List.length heq
  simp only [make_field_dict, List.length_append, if_pos] at hlen
  exact List.eq_nil_of_length_eq_zero (by omega)

/-- C10 witness: a concrete dataset with one required field OBJECTID and
ignore list KEEP: the list is mutated to hold KEEP, OBJECTID. -/
theorem make_field_dict_mutates_ignore_witness :
    (make_field_dict [reqField] (some ["KEEP"]) true).2 = ["KEEP", "OBJECTID"] ∧
    (make_field_dict [reqField] (some ["KEEP"]) true).2 ≠ ["KEEP"] := by
  obtain ⟨h1, h2⟩ := make_field_dict_mutates_ignore [reqField] ["KEEP"]
  exact ⟨by rw [h1]; rfl, h2 (by decide)⟩

set_option maxRecDepth 8192 in
/-- C9 evidence: on a successful export the file's first line is the Type
prefix concatenated with the header (the write of the Type prefix at
table.py line 322 has no trailing newline), so the header row is not on a
line of its own; the data row itself shows the type remapping String to
TEXT and the capitalized True and False flags. -/
theorem export_schema_header_shares_first_line :
    (export_schema_to_csv exportEnvEx envStateEx).file =
        some (exportCsvContent "Polyline" [roadsField]) ∧
    exportCsvContent "Polyline" [roadsField] =
        "Type,Polyline" ++ csvHeader ++ "\n" ++
          "ROAD_NAME,TEXT,0,0,50,Road Name,True,False,,,True,ROAD_NAME\n" ∧
    (fileLines (exportCsvContent "Polyline" [roadsField])).head? =
        some ("Type,Polyline" ++ csvHeader) ∧
    csvHeader ∉ fileLines (exportCsvContent "Polyline" [roadsField]) := by
  exact ⟨rfl, rfl, by decide, by decide⟩

/-- C2 evidence: two datasets sharing field A with differing descriptors;
the mismatch branch of `compare_schemas` subscripts the per-field
descriptor dictionary with the integer 1 (table.py line 272) and raises
KeyError, so no mismatch line is ever emitted or returned. -/
theorem compare_schemas_mismatch_raises :
    (make_field_dict dsStr.fields Option.none false).1.find "A" ≠
        (make_field_dict dsDbl.fields Option.none false).1.find "A" ∧
    compare_schemas dsStr dsDbl = (.error "KeyError: 1", []) := by
  exact ⟨by decide, rfl⟩

theorem dict_find_isSome_iff (d : Dict) (n : String) :
    (Dict.find d n).isSome ↔ n ∈ Dict.keys d := by
  induction d with
  | nil => simp [Dict.find, Dict.keys]
  | cons kv rest ih =>
    obtain ⟨k, v⟩ := kv
    have hkeys : Dict.keys ((k, v) :: rest) = k :: Dict.keys rest := rfl
    rw [hkeys, List.mem_cons]
    by_cases hk : k = n
    · subst hk
      simp [Dict.find]
    · have hfind : Dict.find ((k, v) :: rest) n = Dict.find rest n := by
        simp [Dict.find, hk]
      rw [hfind, ih]
      constructor
      · exact Or.inr
      · rintro (h | h)
        · exact absurd h.symm hk
        · exact h

theorem mem_sortedUnion (d1 d2 : Dict) (n : String) :
    n ∈ sortedUnion d1 d2 ↔ n ∈ Dict.keys d1 ∨ n ∈ Dict.keys d2 := by
  unfold sortedUnion
  rw [List.mem_insertionSort, List.mem_dedup, List.mem_append]

theorem sortedUnion_comm (d1 d2 : Dict) : sortedUnion d1 d2 = sortedUnion d2 d1 := by
  have h1 : List.Perm (sortedUnion d1 d2) ((Dict.keys d1 ++ Dict.keys d2).dedup) :=
    List.perm_insertionSort _ _
  have h2 : List.Perm (sortedUnion d2 d1) ((Dict.keys d2 ++ Dict.keys d1).dedup) :=
    List.perm_insertionSort _ _
  have h3 : List.Perm ((Dict.keys d1 ++ Dict.keys d2).dedup)
      ((Dict.keys d2 ++ Dict.keys d1).dedup) := by
    rw [List.perm_ext_iff_of_nodup (List.nodup_dedup _) (List.nodup_dedup _)]
    intro a
    simp [List.mem_dedup, or_comm]
  exact List.eq_of_perm_of_sorted (h1.trans (h3.trans h2.symm))
    (List.sorted_insertionSort _ _) (List.sorted_insertionSort _ _)

theorem subscript_int (v : FieldDesc) (k : Int) :
    v.subscript (PyKey.int k) = Option.none := rfl

theorem compareStep_missing1 (fc1 fc2 : Dataset) (d1 d2 : Dict) (n : String)
    (h1 : Dict.find d1 n = Option.none) :
    compareStep fc1 fc2 d1 d2 n = .ok ([notFoundMsg n fc1], [notFoundMsg n fc1]) := by
  unfold compareStep
  rw [h1]

theorem compareStep_missing2 (fc1 fc2 : Dataset) (d1 d2 : Dict) (n : String)
    (v1 : FieldDesc) (h1 : Dict.find d1 n = some v1)
    (h2 : Dict.find d2 n = Option.none) :
    compareStep fc1 fc2 d1 d2 n = .ok ([notFoundMsg n fc2], [notFoundMsg n fc2]) := by
  unfold compareStep
  rw [h1, h2]

theorem compareStep_equal (fc1 fc2 : Dataset) (d1 d2 : Dict) (n : String)
    (v : FieldDesc) (h1 : Dict.find d1 n = some v) (h2 : Dict.find d2 n = some v) :
    compareStep fc1 fc2 d1 d2 n = .ok ([sameMsg n], []) := by
  unfold compareStep
  rw [h1, h2]
  simp

theorem compareStep_mismatch (fc1 fc2 : Dataset) (d1 d2 : Dict) (n : String)
    (v1 v2 : FieldDesc) (h1 : Dict.find d1 n = some v1)
    (h2 : Dict.find d2 n = some v2) (hv : v1 ≠ v2) :
    compareStep fc1 fc2 d1 d2 n = .error "KeyError: 1" := by
  unfold compareStep
  rw [h1, h2]
  simp [hv, subscript_int]

theorem compareStep_ok_appended (fc1 fc2 : Dataset) (d1 d2 : Dict) (n : String)
    (lg ap : List String) (h : compareStep fc1 fc2 d1 d2 n = .ok (lg, ap)) :
    ap = (notFoundPick fc1 fc2 d1 d2 n).toList := by
  unfold notFoundPick
  cases h1 : Dict.find d1 n with
  | none =>
    rw [compareStep_missing1 fc1 fc2 d1 d2 n h1] at h
    simp only [Except.ok.injEq, Prod.mk.injEq] at h
    simp [h.2.symm]
  | some v1 =>
    cases h2 : Dict.find d2 n with
    | none =>
      rw [compareStep_missing2 fc1 fc2 d1 d2 n v1 h1 h2] at h
      simp only [Except.ok.injEq, Prod.mk.injEq] at h
      simp [h.2.symm]
    | some v2 =>
      by_cases hv : v1 = v2
      · subst hv
        rw [compareStep_equal fc1 fc2 d1 d2 n v1 h1 h2] at h
        simp only [Except.ok.injEq, Prod.mk.injEq] at h
        simp [h.2.symm]
      · rw [compareStep_mismatch fc1 fc2 d1 d2 n v1 v2 h1 h2 hv] at h
        exact absurd h (by simp)

theorem compareLoop_ok_filterMap (fc1 fc2 : Dataset) (d1 d2 : Dict) :
    ∀ (ns : List String) (r lg : List String),
      compareLoop fc1 fc2 d1 d2 ns = (.ok r, lg) →
      r = ns.filterMap (notFoundPick fc1 fc2 d1 d2) := by
  intro ns
  induction ns with
  | nil =>
    intro r lg h
    simp only [compareLoop, Prod.mk.injEq, Except.ok.injEq] at h
    simp [h.1.symm]
  | cons n rest ih =>
    intro r lg h
    unfold compareLoop at h
    cases hstep : compareStep fc1 fc2 d1 d2 n with
    | error e => rw [hstep] at h; simp at h
    | ok pr =>
      obtain ⟨slg, sap⟩ := pr
      rw [hstep] at h
      cases hrec : compareLoop fc1 fc2 d1 d2 rest with
      | mk res lgs =>
        rw [hrec] at h
        cases res with
        | error e => simp at h
        | ok aps =>
          simp only [Prod.mk.injEq, Except.ok.injEq] at h
          have hap := compareStep_ok_appended fc1 fc2 d1 d2 n slg sap hstep
          have haps := ih aps lgs hrec
          rw [List.filterMap_cons, ← h.1, hap, haps]
          cases notFoundPick fc1 fc2 d1 d2 n <;> simp

theorem compareLoop_same (fc1 fc2 : Dataset) (d1 d2 : Dict) :
    ∀ ns : List String,
      (∀ n ∈ ns, Dict.find d1 n = Dict.find d2 n ∧ (Dict.find d1 n).isSome) →
      compareLoop fc1 fc2 d1 d2 ns = (.ok [], ns.map sameMsg) := by
  intro ns
  induction ns with
  | nil => intro _; rfl
  | cons n rest ih =>
    intro h
    obtain ⟨heq, hsome⟩ := h n (List.mem_cons_self n rest)
    obtain ⟨v, hv⟩ := Option.isSome_iff_exists.mp hsome
    have h2 : Dict.find d2 n = some v := heq ▸ hv
    have hrest := ih (fun m hm => h m (List.mem_cons_of_mem n hm))
    unfold compareLoop
    rw [compareStep_equal fc1 fc2 d1 d2 n v hv h2, hrest]
    simp

theorem notFoundPick_symm (fc1 fc2 : Dataset) (d1 d2 : Dict) (n : String)
    (hn : (Dict.find d1 n).isSome ∨ (Dict.find d2 n).isSome) :
    notFoundPick fc1 fc2 d1 d2 n = notFoundPick fc2 fc1 d2 d1 n := by
  unfold notFoundPick
  cases h1 : Dict.find d1 n with
  | none =>
    cases h2 : Dict.find d2 n with
    | none => rw [h1, h2] at hn; simp at hn
    | some v2 => rfl
  | some v1 =>
    cases h2 : Dict.find d2 n with
    | none => rfl
    | some v2 => rfl

theorem notFoundResults_symm (A B : Dataset) :
    notFoundResults A B = notFoundResults B A := by
  unfold notFoundResults
  rw [sortedUnion_comm]
  apply List.filterMap_congr
  intro n hn
  apply notFoundPick_symm
  rcases (mem_sortedUnion _ _ n).mp hn with h | h
  · exact Or.inr ((dict_find_isSome_iff _ n).mpr h)
  · exact Or.inl ((dict_find_isSome_iff _ n).mpr h)

/-- C8: whenever `compare_schemas` returns an array for both argument
orders, each returned array consists exactly of one not-found line per field
name present in one side's field dictionary and absent from the other,
taken in sorted order, and the two arrays are equal: the two calls flag
exactly the same missing fields, each line naming the dataset the field is
absent from. -/
theorem compare_schemas_not_found_symmetric (A B : Dataset) (r1 r2 lg1 lg2 : List String)
    (h1 : compare_schemas A B = (.ok r1, lg1))
    (h2 : compare_schemas B A = (.ok r2, lg2)) :
    r1 = notFoundResults A B ∧ r2 = notFoundResults B A ∧ r1 = r2 := by
  have e1 : r1 = notFoundResults A B :=
    compareLoop_ok_filterMap A B _ _ _ r1 lg1 h1
  have e2 : r2 = notFoundResults B A :=
    compareLoop_ok_filterMap B A _ _ _ r2 lg2 h2
  exact ⟨e1, e2, e1.trans ((notFoundResults_symm A B).trans e2.symm)⟩

/-- C8 witness: dataset t0 with no fields against dataset t4 with the one
field B1: both call orders return the same single not-found line flagging
B1 as absent from t0. -/
theorem compare_schemas_not_found_symmetric_witness :
    [" B1 not found in t0"] = notFoundResults dsNoFields dsOnlyB1 ∧
    [" B1 not found in t0"] = notFoundResults dsOnlyB1 dsNoFields ∧
    ([" B1 not found in t0"] : List String) = [" B1 not found in t0"] := by
  exact compare_schemas_not_found_symmetric dsNoFields dsOnlyB1
    [" B1 not found in t0"] [" B1 not found in t0"]
    [" B1 not found in t0"] [" B1 not found in t0"]
    rfl rfl

/-- C7: when the two datasets' field dictionaries are identical (every name
looks up to the same descriptor in both), `compare_schemas` returns an
empty array, and the per-field same lines appear only in the `output_msg`
log, one per field name in sorted order. -/
theorem compare_schemas_identical_empty (A B : Dataset)
    (hsame : ∀ n, Dict.find (make_field_dict A.fields Option.none false).1 n =
        Dict.find (make_field_dict B.fields Option.none false).1 n) :
    compare_schemas A B =
      (.ok [],
       (sortedUnion (make_field_dict A.fields Option.none false).1
          (make_field_dict B.fields Option.none false).1).map sameMsg) := by
  apply compareLoop_same
  intro n hn
  refine ⟨hsame n, ?_⟩
  rcases (mem_sortedUnion _ _ n).mp hn with h | h
  · exact (dict_find_isSome_iff _ n).mpr h
  · exact hsame n ▸ (dict_find_isSome_iff _ n).mpr h

/-- C7 witness: two datasets with the same single field A under different
paths: the returned array is empty and the log holds the one same line. -/
theorem compare_schemas_identical_empty_witness :
    compare_schemas dsStr dsStr2 = (.ok [], [" A field same in both"]) := by
  have h := compare_schemas_identical_empty dsStr dsStr2 (fun n => rfl)
  exact h.trans rfl
